import Mathlib

/-!
A shallow embedding of `src/apod_desktop.py` (COMP 593 final project):
a script that downloads NASA's APOD page, hashes the bytes, and is meant
to cache the image in a directory plus a sqlite metadata table.

Modelling conventions:
  * bytes are `List Nat`, a SHA-256 digest is produced by an arbitrary
    function `sha256fn : List Nat → String` passed to the model (the
    digest's internals never matter, only that it is a function of the
    bytes);
  * the filesystem and the sqlite database live in a `World` record that
    every effectful step threads;
  * a Python exception (including `sys.exit`, which raises `SystemExit`)
    is an `Except.error` carrying a `PyError`;
  * HTTP is a pure oracle `http : String → Nat × List Nat` giving the
    status code and body for a URL.
-/

namespace Apod

/-- One row of the `apod_images` table (section 6 of the spec). -/
structure ImageRecord where
  date : String
  size : Nat
  sha256 : String
  downloaded_at : String
  deriving DecidableEq

/-- The column names of `apod_images`, as created by `create_image_db`
(lines 204-209). -/
def apodColumns : List String := ["date", "size", "sha256", "downloaded_at"]

/-- The sqlite database at `db_path`: which tables exist, and the rows of
`apod_images`. -/
structure Database where
  tables : List String
  rows : List ImageRecord
  deriving DecidableEq

/-- A raised Python exception.  `systemExit` is what `sys.exit(msg)` raises
after the script printed `diagnostic`: the interpreter prints `message` to
stderr and the process exit status is `code`. -/
inductive PyError where
  | systemExit (code : Nat) (diagnostic : String) (message : String)
  | operationalError (message : String)
  | typeError (message : String)
  deriving DecidableEq

deriving instance DecidableEq for Except

/-- Observable side effects of a run, in order. The persist helpers
`save_image_file` / `add_image_to_db` would contribute `writeFile` /
`insertRecord` events if their bodies did anything. -/
inductive Event where
  | createDb
  | fetchInfo
  | fetchImage
  | writeFile (path : String) (bytes : List Nat)
  | insertRecord (r : ImageRecord)
  deriving DecidableEq

/-- Mutable world state threaded through the run: the set of existing
directories, the files on disk (path, bytes), the sqlite database, and the
event log. -/
structure World where
  dirs : List String
  files : List (String × List Nat)
  db : Database
  events : List Event
  deriving DecidableEq

/-- Python truthiness of a string: non-empty is true. -/
def pyTruthy (s : String) : Bool := !s.data.isEmpty

/-- `os.path.join(a, b)` (posix semantics): `b` if it is absolute, else `a`
and `b` glued with `/` unless `a` is empty or already ends in the
separator. -/
def posix_join (a b : String) : String :=
  if b.data.head? = some '/' then b
  else if a = "" ∨ a.data.getLast? = some '/' then a ++ b
  else a ++ "/" ++ b

/-- `image_url.split('/')[-1]` (line 115): the final `/`-separated segment,
i.e. the longest suffix containing no `/`. -/
def lastSegment (s : String) : String :=
  ⟨(s.data.reverse.takeWhile (fun c => !(c == '/'))).reverse⟩

/-- The path `get_image_path` returns for a URL and a base directory
(lines 115-121): the base directory joined with the URL's final segment. -/
def get_image_path_pure (image_url dir_path : String) : String :=
  posix_join dir_path (lastSegment image_url)

/-- `get_image_path` (lines 105-121): computes `img_dir`, runs `mkdir` when
that directory does not exist yet, and returns `img_dir` (the directory
itself — the function never appends a file name). -/
def get_image_path (image_url dir_path : String) (w : World) : String × World :=
  let img_dir := get_image_path_pure image_url dir_path
  (img_dir, if img_dir ∈ w.dirs then w else { w with dirs := img_dir :: w.dirs })

/-- `get_image_dir_path` (lines 62-79): `argv[1]` must exist and be a
directory, otherwise the script prints a diagnostic and calls
`exit('Script execution aborted')` (exit status 1). `isdir` is the
filesystem oracle for `os.path.isdir`. -/
def get_image_dir_path (argv : List String) (isdir : String → Bool) :
    Except PyError String :=
  if 2 ≤ argv.length then
    if isdir (argv.getD 1 "") then Except.ok (argv.getD 1 "")
    else Except.error (PyError.systemExit 1
      ("Error: Non-existent directory " ++ argv.getD 1 "") "Script execution aborted")
  else Except.error (PyError.systemExit 1
    "Error: Missing path parameter." "Script execution aborted")

/-- Is `y` a Gregorian leap year (as `datetime` computes it). -/
def isLeapYear (y : Nat) : Bool :=
  y % 4 == 0 && (y % 100 != 0 || y % 400 == 0)

/-- Days in month `m` of year `y` (as `datetime` validates them). -/
def daysInMonth (y m : Nat) : Nat :=
  if m == 2 then (if isLeapYear y then 29 else 28)
  else if m == 4 ∨ m == 6 ∨ m == 9 ∨ m == 11 then 30
  else 31

/-- Split a character list at every `'-'`, keeping empty pieces — the
piece structure `s.split('-')` would produce, and the shape the literal
dashes of the format `'%Y-%m-%d'` impose on the input. -/
def splitDash : List Char → List (List Char)
  | [] => [[]]
  | c :: rest =>
    match splitDash rest with
    | [] => [[]]
    | piece :: pieces =>
      if c = '-' then [] :: piece :: pieces else (c :: piece) :: pieces

/-- Numeric value of a digit string, as `int` reads it. -/
def natOfDigits (l : List Char) : Nat :=
  l.foldl (fun n c => 10 * n + (c.toNat - '0'.toNat)) 0

/-- `%Y` of `strptime`: exactly four digits. -/
def yearField (l : List Char) : Option Nat :=
  if l.length == 4 && l.all Char.isDigit then some (natOfDigits l) else none

/-- `%m` of `strptime` (regex `1[0-2]|0[1-9]|[1-9]`): one or two digits
with value 1..12 — an unpadded month like `3` is accepted. -/
def monthField (l : List Char) : Option Nat :=
  if (l.length == 1 || l.length == 2) && l.all Char.isDigit then
    if 1 ≤ natOfDigits l ∧ natOfDigits l ≤ 12 then some (natOfDigits l) else none
  else none

/-- `%d` of `strptime` (regex `3[01]|[12]\d|0[1-9]|[1-9]`): one or two
digits with value 1..31 — an unpadded day like `5` is accepted. -/
def dayField (l : List Char) : Option Nat :=
  if (l.length == 1 || l.length == 2) && l.all Char.isDigit then
    if 1 ≤ natOfDigits l ∧ natOfDigits l ≤ 31 then some (natOfDigits l) else none
  else none

/-- Does `datetime.strptime(s, '%Y-%m-%d')` succeed (line 94)?  The string
must be year-dash-month-dash-day with nothing left over, and the resulting
`datetime` must be a real calendar date with year at least 1.  CPython's
`%m`/`%d` accept unpadded one-digit fields, so this is strictly more
liberal than the literal `YYYY-MM-DD` shape. -/
def strptime_Ymd (s : String) : Bool :=
  match splitDash s.data with
  | [ys, ms, ds] =>
    match yearField ys, monthField ms, dayField ds with
    | some y, some m, some d => 1 ≤ y && d ≤ daysInMonth y m
    | _, _, _ => false
  | _ => false

/-- The spec's literal `YYYY-MM-DD` date shape (section 6): four digits,
dash, two digits, dash, two digits. -/
def matchesSpecDateFormat (s : String) : Bool :=
  match s.data with
  | [y1, y2, y3, y4, h1, m1, m2, h2, d1, d2] =>
    y1.isDigit && y2.isDigit && y3.isDigit && y4.isDigit && h1 == '-' &&
    m1.isDigit && m2.isDigit && h2 == '-' && d1.isDigit && d2.isDigit
  | _ => false

/-- `get_apod_date` (lines 81-103): with a third argument, validate it via
`strptime` and exit (status 1, after a diagnostic) on failure; with none,
use today's date. -/
def get_apod_date (argv : List String) (today : String) : Except PyError String :=
  if 3 ≤ argv.length then
    if strptime_Ymd (argv.getD 2 "") then Except.ok (argv.getD 2 "")
    else Except.error (PyError.systemExit 1
      "Error: Incorrect date format; Should be YYYY-MM-DD" "Script execution aborted")
  else Except.ok today

/-- `create_image_db` (lines 193-211): `CREATE TABLE IF NOT EXISTS
apod_images (...)` — creates the table when absent, does nothing when
present, and never raises. -/
def create_image_db (db : Database) : Database :=
  if "apod_images" ∈ db.tables then db
  else { db with tables := db.tables ++ ["apod_images"] }

/-- `get_apod_info` (lines 125-147): on HTTP 200 it returns the request
parameter dictionary (not the response body!), otherwise `None`.  `main`
never uses the returned value. -/
def get_apod_info (date : String) (status : Nat) : Option (List (String × String)) :=
  if status == 200 then
    some [("api_key", "5V5z2c322vMg4bcKiiIZrMPkPWMCKqxHRNcRqngO"),
          ("date", date), ("thumbs", "True")]
  else none

/-- `download_apod_image` (lines 165-180): on status 200 it returns the
response body; on any other status it prints a message and falls off the
end of the function, returning `None`.  It never raises. -/
def download_apod_image (image_url : String) (http : String → Nat × List Nat) :
    Except PyError (Option (List Nat)) :=
  let response := http image_url
  if response.1 == 200 then Except.ok (some response.2) else Except.ok none

/-- `sha256(image_msg)` in `main` (line 47): hashing `None` raises
`TypeError`; otherwise the digest object, abstracted as `sha256fn` applied
to the bytes. -/
def sha256_of (sha256fn : List Nat → String) : Option (List Nat) → Except PyError String
  | some msg => Except.ok (sha256fn msg)
  | none => Except.error (PyError.typeError "object supporting the buffer API required")

/-- `save_image_file` (lines 182-191): the whole body is `return  #TODO` —
no file is written, the world is unchanged. -/
def save_image_file (image_msg : List Nat) (image_path : String) (w : World) : World :=
  w

/-- `add_image_to_db` (lines 215-225): the whole body is `return  #TODO` —
no row is inserted, the world is unchanged. -/
def add_image_to_db (db_path image_path : String) (image_size : Nat)
    (image_sha256 : String) (w : World) : World :=
  w

/-- `set_desktop_background_image` (lines 248-255): body is
`return  #TODO`. -/
def set_desktop_background_image (image_path : String) (w : World) : World :=
  w

/-- The SQL text `image_already_in_db` executes (lines 239-240).  Note the
hash is not bound in: `image_sha256` stands in the text as a bare SQL
identifier, and the Python variable of the same name is never
interpolated. -/
def selectStatement : String :=
  "SELECT date FROM apod_images\n    WHERE sha256 = image_sha256"

/-- Value of a column in a row, as sqlite would read it. -/
def ImageRecord.colVal (r : ImageRecord) : String → String
  | "date" => r.date
  | "size" => toString r.size
  | "sha256" => r.sha256
  | "downloaded_at" => r.downloaded_at
  | _ => ""

/-- `myCursor.execute(selectStatement)` (line 242).  sqlite resolves the
identifiers of the statement when it prepares it: the table must exist, and
`image_sha256` must be a column of `apod_images` — it is not, so preparing
the statement raises `OperationalError: no such column: image_sha256`. -/
def execSelectStatement (db : Database) : Except PyError (List String) :=
  if "apod_images" ∈ db.tables then
    if "image_sha256" ∈ apodColumns then
      Except.ok ((db.rows.filter
        (fun r => r.colVal "sha256" == r.colVal "image_sha256")).map
        (fun r => r.colVal "date"))
    else Except.error (PyError.operationalError "no such column: image_sha256")
  else Except.error (PyError.operationalError "no such table: apod_images")

/-- `image_already_in_db` (lines 227-246): execute the select, then branch
on `if selectStatement:` — the truthiness of the SQL *string*, not of the
query result. -/
def image_already_in_db (db : Database) (image_sha256 : String) :
    Except PyError Bool :=
  match execSelectStatement db with
  | Except.error e => Except.error e
  | Except.ok _ => if pyTruthy selectStatement then Except.ok true else Except.ok false

/-- The hardcoded download URL of `main` (line 45); the APOD date never
reaches it. -/
def image_url : String := "https://apod.nasa.gov/apod/astropix.html"

/-- `main` (lines 29-60), as a function of the command line, the filesystem
oracle, today's date, the HTTP oracle, the status of the API info call, the
digest function and the initial world.  Returns the final world and the
uncaught exception, if any. -/
def main_run (argv : List String) (isdir : String → Bool) (today : String)
    (http : String → Nat × List Nat) (infoStatus : Nat)
    (sha256fn : List Nat → String) (w : World) : World × Option PyError :=
  match get_image_dir_path argv isdir with
  | Except.error e => (w, some e)
  | Except.ok image_dir_path =>
    let db_path := posix_join image_dir_path "apod_images.db"
    match get_apod_date argv today with
    | Except.error e => (w, some e)
    | Except.ok apod_date =>
      let w1 : World := { w with db := create_image_db w.db,
                                 events := w.events ++ [Event.createDb] }
      let _apod_info_dict := get_apod_info apod_date infoStatus
      let w2 : World := { w1 with events := w1.events ++ [Event.fetchInfo] }
      match download_apod_image image_url http with
      | Except.error e => (w2, some e)
      | Except.ok image_msg =>
        let w3 : World := { w2 with events := w2.events ++ [Event.fetchImage] }
        match sha256_of sha256fn image_msg with
        | Except.error e => (w3, some e)
        | Except.ok image_sha256 =>
          let image_size := (image_msg.getD []).length
          let pw := get_image_path image_url image_dir_path w3
          match image_already_in_db pw.2.db image_sha256 with
          | Except.error e => (pw.2, some e)
          | Except.ok known =>
            let w5 := if known then pw.2
              else add_image_to_db db_path pw.1 image_size image_sha256
                     (save_image_file (image_msg.getD []) pw.1 pw.2)
            (set_desktop_background_image pw.1 w5, none)

/-- The date-independent observables of a run of `main`: the download URL,
the fetched bytes, the computed digest and the local image path, when the
run reaches them (`none` when it exits or raises first). -/
def main_observables (argv : List String) (isdir : String → Bool) (today : String)
    (http : String → Nat × List Nat) (sha256fn : List Nat → String)
    (w : World) : Option (String × List Nat × String × String) :=
  match get_image_dir_path argv isdir with
  | Except.error _ => none
  | Except.ok image_dir_path =>
    match get_apod_date argv today with
    | Except.error _ => none
    | Except.ok _apod_date =>
      match download_apod_image image_url http with
      | Except.ok (some image_msg) =>
        some (image_url, image_msg, sha256fn image_msg,
              (get_image_path image_url image_dir_path w).1)
      | _ => none




/-! ### Helper lemmas -/

/-- The final URL segment contains no slash. -/
theorem lastSegment_no_slash (s : String) : '/' ∉ (lastSegment s).data := by
  intro hmem
  have h1 : '/' ∈ (s.data.reverse.takeWhile (fun c => !(c == '/'))).reverse := hmem
  rw [List.mem_reverse] at h1
  have h2 := List.mem_takeWhile_imp h1
  simp at h2

/-- If a string's first character is a slash, a slash occurs in it. -/
theorem head_slash_mem {b : String} (h : b.data.head? = some '/') :
    '/' ∈ b.data := by
  cases hd : b.data with
  | nil => simp [hd] at h
  | cons a t =>
    rw [hd] at h
    simp only [List.head?_cons, Option.some.injEq] at h
    subst h
    exact List.mem_cons_self _ _

/-- String append is left-cancellative. -/
theorem string_append_cancel_left {c s t : String} (h : c ++ s = c ++ t) :
    s = t := by
  have hd := congrArg String.data h
  rw [String.data_append c s, String.data_append c t] at hd
  exact String.ext (List.append_cancel_left hd)

/-- `posix_join` is injective in its second argument when neither segment
contains a slash. -/
theorem posix_join_right_inj (d : String) {b₁ b₂ : String}
    (h₁ : '/' ∉ b₁.data) (h₂ : '/' ∉ b₂.data)
    (heq : posix_join d b₁ = posix_join d b₂) : b₁ = b₂ := by
  unfold posix_join at heq
  rw [if_neg (fun hh => h₁ (head_slash_mem hh)),
      if_neg (fun hh => h₂ (head_slash_mem hh))] at heq
  by_cases hd : d = "" ∨ d.data.getLast? = some '/'
  · rw [if_pos hd, if_pos hd] at heq
    exact string_append_cancel_left heq
  · rw [if_neg hd, if_neg hd] at heq
    exact string_append_cancel_left heq

/-! ### Concrete scenario shared by several claims -/

/-- A small world: `/imgs` exists and is empty; no tables, rows, files or
events yet. -/
def W0 : World :=
  { dirs := ["/imgs"], files := [], db := { tables := [], rows := [] }, events := [] }

/-- A filesystem oracle under which exactly `/imgs` is a directory. -/
def isdir0 : String → Bool := fun d => d == "/imgs"

/-- An HTTP oracle: every URL answers 200 with body `[7, 7]`. -/
def http200 : String → Nat × List Nat := fun _ => (200, [7, 7])

/-- A stand-in digest function. -/
def sha0 : List Nat → String := fun b => toString b

/-- The command line `apod_desktop.py /imgs 2022-01-01`. -/
def argv0 : List String := ["apod_desktop.py", "/imgs", "2022-01-01"]

/-- First run of `main` from `W0`. -/
def runOnce : World × Option PyError :=
  main_run argv0 isdir0 "2022-01-01" http200 200 sha0 W0

/-- A second, byte-identical run, from the world the first run left. -/
def runTwice : World × Option PyError :=
  main_run argv0 isdir0 "2022-01-01" http200 200 sha0 runOnce.1

/-! ### The claims -/

/-- C1: the claim promises that two fetch-and-persist runs over bytes of
identical content hash yield exactly one file write and one metadata
record.  In fact both runs die in `image_already_in_db` with an
`OperationalError` (the SQL references the nonexistent column
`image_sha256`), and the persist helpers are `return  #TODO` stubs, so the
store ends with zero files, zero rows, and no write or insert event at
all. -/
theorem C1_two_runs_persist_nothing :
    runOnce.2 = some (PyError.operationalError "no such column: image_sha256") ∧
    runTwice.2 = some (PyError.operationalError "no such column: image_sha256") ∧
    runTwice.1.files = [] ∧
    runTwice.1.db.rows = [] ∧
    runTwice.1.events = [Event.createDb, Event.fetchInfo, Event.fetchImage,
      Event.createDb, Event.fetchInfo, Event.fetchImage] := by decide

/-- C2: the claim promises `is_known` returns false for a hash never
persisted, binding the hash argument into the query.  Evaluated on a store
holding the table and no rows and the never-persisted hash `abc123`, the
code instead raises `OperationalError`: the query compares the `sha256`
column with the unbound SQL identifier `image_sha256` instead of the hash
parameter. -/
theorem C2_lookup_raises_instead_of_false :
    image_already_in_db { tables := ["apod_images"], rows := [] } "abc123"
      = Except.error (PyError.operationalError "no such column: image_sha256") := by
  decide

/-- C3: the claim promises that persist writes the bytes to the path and
inserts one `ImageRecord`.  Both halves of persist — `save_image_file` and
`add_image_to_db` — have `return  #TODO` as their whole body: they leave
every part of the world exactly as it was, writing no file and inserting
no row. -/
theorem C3_persist_helpers_are_noops (image_msg : List Nat)
    (db_path image_path : String) (image_size : Nat) (image_sha256 : String)
    (w : World) :
    save_image_file image_msg image_path w = w ∧
    add_image_to_db db_path image_path image_size image_sha256 w = w :=
  ⟨rfl, rfl⟩

/-- C4 (amended): the returned path is a function of `(url, dir)` alone —
identical across calls and filesystem states — and two URLs yield distinct
paths whenever their final `/`-segments differ (not for every pair of
distinct URLs: the path keeps only the last segment). -/
theorem C4_path_determinism_and_segment_injectivity
    (url₁ url₂ dir_path : String) (w₁ w₂ : World)
    (hseg : lastSegment url₁ ≠ lastSegment url₂) :
    (get_image_path url₁ dir_path w₁).1 = (get_image_path url₁ dir_path w₂).1 ∧
    (get_image_path url₁ dir_path w₁).1 = get_image_path_pure url₁ dir_path ∧
    (get_image_path url₁ dir_path w₁).1 ≠ (get_image_path url₂ dir_path w₂).1 := by
  refine ⟨rfl, rfl, ?_⟩
  intro heq
  have heq' : posix_join dir_path (lastSegment url₁)
      = posix_join dir_path (lastSegment url₂) := heq
  exact hseg (posix_join_right_inj dir_path (lastSegment_no_slash url₁)
    (lastSegment_no_slash url₂) heq')

/-- C4 witness: two URLs with different final segments, across two
different filesystem states. -/
theorem C4_path_witness :
    (get_image_path "https://apod.nasa.gov/apod/image1.png" "/imgs" W0).1
      = (get_image_path "https://apod.nasa.gov/apod/image1.png" "/imgs" runOnce.1).1 ∧
    (get_image_path "https://apod.nasa.gov/apod/image1.png" "/imgs" W0).1
      = get_image_path_pure "https://apod.nasa.gov/apod/image1.png" "/imgs" ∧
    (get_image_path "https://apod.nasa.gov/apod/image1.png" "/imgs" W0).1
      ≠ (get_image_path "https://apod.nasa.gov/apod/image2.png" "/imgs" runOnce.1).1 :=
  C4_path_determinism_and_segment_injectivity
    "https://apod.nasa.gov/apod/image1.png" "https://apod.nasa.gov/apod/image2.png"
    "/imgs" W0 runOnce.1 (by decide)

/-- C4 counterexample: two distinct URLs sharing the final segment
`astropix.html` map to the same path, refuting "a different path for a
different url with the same dir". -/
theorem C4_distinct_urls_same_path :
    ("https://a.example/astropix.html" == "https://b.example/astropix.html") = false ∧
    (get_image_path "https://a.example/astropix.html" "/imgs" W0).1
      = (get_image_path "https://b.example/astropix.html" "/imgs" W0).1 := by
  decide

/-- C5: `create_image_db` issues `CREATE TABLE IF NOT EXISTS`: it is a
total function (no exception), applying it twice equals applying it once,
and afterwards exactly one `apod_images` table exists (sqlite guarantees at
most one table of a given name beforehand, the hypothesis). -/
theorem C5_create_image_db_idempotent (db : Database)
    (h : db.tables.count "apod_images" ≤ 1) :
    create_image_db (create_image_db db) = create_image_db db ∧
    (create_image_db db).tables.count "apod_images" = 1 := by
  by_cases hmem : "apod_images" ∈ db.tables
  · have h1 : create_image_db db = db := by simp [create_image_db, hmem]
    rw [h1]
    have hpos : 0 < db.tables.count "apod_images" := List.count_pos_iff.mpr hmem
    exact ⟨h1, by omega⟩
  · have h1 : create_image_db db
        = { db with tables := db.tables ++ ["apod_images"] } := by
      simp [create_image_db, hmem]
    have hmem2 : "apod_images" ∈ db.tables ++ ["apod_images"] :=
      List.mem_append_right _ (by simp)
    constructor
    · rw [h1]
      simp [create_image_db, hmem2]
    · rw [h1]
      have h0 : db.tables.count "apod_images" = 0 := List.count_eq_zero.mpr hmem
      simp [List.count_append, h0]

/-- C5 witness: an empty store. -/
theorem C5_schema_witness :
    create_image_db (create_image_db { tables := [], rows := [] })
      = create_image_db { tables := [], rows := [] } ∧
    (create_image_db { tables := [], rows := [] }).tables.count "apod_images" = 1 :=
  C5_create_image_db_idempotent { tables := [], rows := [] } (by decide)

/-- C6 counterexample: for the 404 response the claim demands a raised,
propagated `RemoteUnavailable`-style failure; `download_apod_image`
instead returns normally (`toOption = some _`) with the value `None`. -/
theorem C6_download_returns_none_on_404 :
    download_apod_image image_url (fun _ => (404, [])) = Except.ok none ∧
    (download_apod_image image_url (fun _ => (404, []))).toOption = some none := by
  decide

/-- C6 (amended): on any non-200 status `download_apod_image` returns the
value `None` rather than raising; the run still terminates, but only
because `main` then applies `sha256` to `None`, which raises `TypeError`
in the caller — not a propagated fetcher error. -/
theorem C6_non2xx_none_then_typeerror (isdir : String → Bool)
    (today : String) (http : String → Nat × List Nat) (infoStatus : Nat)
    (sha256fn : List Nat → String) (w : World) (prog dir : String)
    (hdir : isdir dir = true) (hst : (http image_url).1 ≠ 200) :
    download_apod_image image_url http = Except.ok none ∧
    main_run [prog, dir] isdir today http infoStatus sha256fn w
      = ({ w with
            db := create_image_db w.db,
            events := w.events ++ [Event.createDb, Event.fetchInfo, Event.fetchImage] },
         some (PyError.typeError "object supporting the buffer API required")) := by
  have hbeq : ((http image_url).1 == 200) = false := by simpa using hst
  have hdl : download_apod_image image_url http = Except.ok none := by
    simp [download_apod_image, hbeq]
  refine ⟨hdl, ?_⟩
  simp [main_run, get_image_dir_path, get_apod_date, hdir, hdl, sha256_of,
    List.append_assoc]

/-- C6 witness: a 404 response behind an otherwise valid invocation. -/
theorem C6_typeerror_witness :
    download_apod_image image_url (fun _ => (404, [9])) = Except.ok none ∧
    main_run ["apod_desktop.py", "/imgs"] (fun _ => true) "2022-01-01"
        (fun _ => (404, [9])) 200 sha0 W0
      = ({ W0 with
            db := create_image_db W0.db,
            events := W0.events ++ [Event.createDb, Event.fetchInfo, Event.fetchImage] },
         some (PyError.typeError "object supporting the buffer API required")) :=
  C6_non2xx_none_then_typeerror (fun _ => true) "2022-01-01"
    (fun _ => (404, [9])) 200 sha0 W0 "apod_desktop.py" "/imgs" rfl (by decide)

/-- C7 counterexample: `2022-3-5` does not match `YYYY-MM-DD`, yet
`strptime('%Y-%m-%d')` accepts it, so the run does not terminate: the date
validator returns it and the run goes on to fetch the image. -/
theorem C7_unpadded_date_not_rejected :
    matchesSpecDateFormat "2022-3-5" = false ∧
    get_apod_date ["apod_desktop.py", "/imgs", "2022-3-5"] "2022-01-01"
      = Except.ok "2022-3-5" ∧
    (main_run ["apod_desktop.py", "/imgs", "2022-3-5"] isdir0 "2022-01-01"
        http200 200 sha0 W0).1.events.contains Event.fetchImage = true := by
  decide

/-- C7 (amended): a missing directory argument, or a date argument
*rejected by `strptime('%Y-%m-%d')`* (which also accepts unpadded dates
such as `2022-3-5`, so not every non-`YYYY-MM-DD` string is rejected),
terminates the run with exit status 1 and a diagnostic, with the world
untouched — before any fetch or persist. -/
theorem C7_invalid_args_exit_before_fetch (argv : List String)
    (isdir : String → Bool) (today : String) (http : String → Nat × List Nat)
    (infoStatus : Nat) (sha256fn : List Nat → String) (w : World)
    (h : argv.length < 2 ∨
      (3 ≤ argv.length ∧ strptime_Ymd (argv.getD 2 "") = false)) :
    ∃ diagnostic message,
      main_run argv isdir today http infoStatus sha256fn w
        = (w, some (PyError.systemExit 1 diagnostic message)) := by
  rcases h with h | ⟨h3, hbad⟩
  · have h2 : ¬ 2 ≤ argv.length := by omega
    have e1 : get_image_dir_path argv isdir = Except.error (PyError.systemExit 1
        "Error: Missing path parameter." "Script execution aborted") := by
      unfold get_image_dir_path
      rw [if_neg h2]
    exact ⟨"Error: Missing path parameter.", "Script execution aborted",
      by unfold main_run; rw [e1]⟩
  · have h2 : 2 ≤ argv.length := by omega
    cases hd : isdir (argv.getD 1 "") with
    | false =>
      have e1 : get_image_dir_path argv isdir = Except.error (PyError.systemExit 1
          ("Error: Non-existent directory " ++ argv.getD 1 "")
          "Script execution aborted") := by
        unfold get_image_dir_path
        rw [if_pos h2, hd]
        simp
      exact ⟨"Error: Non-existent directory " ++ argv.getD 1 "",
        "Script execution aborted",
        by unfold main_run; rw [e1]⟩
    | true =>
      have e1 : get_image_dir_path argv isdir = Except.ok (argv.getD 1 "") := by
        unfold get_image_dir_path
        rw [if_pos h2, hd]
        simp
      have e2 : get_apod_date argv today = Except.error (PyError.systemExit 1
          "Error: Incorrect date format; Should be YYYY-MM-DD"
          "Script execution aborted") := by
        unfold get_apod_date
        rw [if_pos h3, hbad]
        simp
      exact ⟨"Error: Incorrect date format; Should be YYYY-MM-DD",
        "Script execution aborted",
        by unfold main_run; rw [e1, e2]⟩

/-- C7 witness: no directory argument at all. -/
theorem C7_exit_witness :
    ∃ diagnostic message,
      main_run ["apod_desktop.py"] isdir0 "2022-01-01" http200 200 sha0 W0
        = (W0, some (PyError.systemExit 1 diagnostic message)) :=
  C7_invalid_args_exit_before_fetch ["apod_desktop.py"] isdir0 "2022-01-01"
    http200 200 sha0 W0 (Or.inl (by decide))

/-- C8: the SQL string `selectStatement` is non-empty, and
`image_already_in_db` can never return `False`: mapping its result so that
an exception also reads as `true`, the outcome is always `true` — when the
query executes, the code branches on the truthiness of the non-empty SQL
string itself, so the `False` branch is dead and no image is ever
classified as new.  (In fact the execute always raises, see C2.) -/
theorem C8_false_branch_unreachable :
    pyTruthy selectStatement = true ∧
    ∀ (db : Database) (image_sha256 : String),
      (image_already_in_db db image_sha256).toOption.getD true = true := by
  refine ⟨by decide, ?_⟩
  intro db image_sha
  have hcol : ¬ ("image_sha256" ∈ apodColumns) := by decide
  unfold image_already_in_db execSelectStatement
  by_cases htab : "apod_images" ∈ db.tables
  · rw [if_pos htab, if_neg hcol]
    rfl
  · rw [if_neg htab]
    rfl

/-- C9: two runs differing only in the (valid) date argument produce the
same observables — URL, fetched bytes, digest, local path — and in fact
identical final worlds and outcomes: the date reaches only the discarded
API-info dictionary and the log. -/
theorem C9_date_noninterference (prog dir d₁ d₂ today : String)
    (isdir : String → Bool) (http : String → Nat × List Nat) (infoStatus : Nat)
    (sha256fn : List Nat → String) (w : World)
    (h₁ : strptime_Ymd d₁ = true) (h₂ : strptime_Ymd d₂ = true) :
    main_observables [prog, dir, d₁] isdir today http sha256fn w
      = main_observables [prog, dir, d₂] isdir today http sha256fn w ∧
    main_run [prog, dir, d₁] isdir today http infoStatus sha256fn w
      = main_run [prog, dir, d₂] isdir today http infoStatus sha256fn w := by
  cases hd : isdir dir with
  | false =>
    constructor <;>
      simp [main_observables, main_run, get_image_dir_path, hd]
  | true =>
    constructor <;>
      simp [main_observables, main_run, get_image_dir_path, get_apod_date,
        hd, h₁, h₂]

/-- C9 witness: the dates 2022-01-01 and 2023-12-25. -/
theorem C9_noninterference_witness :
    main_observables ["apod_desktop.py", "/imgs", "2022-01-01"] isdir0
        "2022-01-01" http200 sha0 W0
      = main_observables ["apod_desktop.py", "/imgs", "2023-12-25"] isdir0
        "2022-01-01" http200 sha0 W0 ∧
    main_run ["apod_desktop.py", "/imgs", "2022-01-01"] isdir0 "2022-01-01"
        http200 200 sha0 W0
      = main_run ["apod_desktop.py", "/imgs", "2023-12-25"] isdir0 "2022-01-01"
        http200 200 sha0 W0 :=
  C9_date_noninterference "apod_desktop.py" "/imgs" "2022-01-01" "2023-12-25"
    "2022-01-01" isdir0 http200 200 sha0 W0 (by decide) (by decide)

/-- C10: `get_image_path` returns the directory named after the URL's final
segment inside the base directory; its only filesystem effect is to create
that directory when absent — files, database and event log are untouched,
the world is fully unchanged when the directory already exists, and the
directories afterwards are exactly the old ones plus (at most) the returned
one. -/
theorem C10_get_image_path_frame (url dir_path : String) (w : World) :
    (get_image_path url dir_path w).1 = posix_join dir_path (lastSegment url) ∧
    (get_image_path url dir_path w).2.files = w.files ∧
    (get_image_path url dir_path w).2.db = w.db ∧
    (get_image_path url dir_path w).2.events = w.events ∧
    ((get_image_path url dir_path w).1 ∈ w.dirs →
      (get_image_path url dir_path w).2 = w) ∧
    ∀ p, p ∈ (get_image_path url dir_path w).2.dirs ↔
      (p = (get_image_path url dir_path w).1 ∨ p ∈ w.dirs) := by
  by_cases hmem : get_image_path_pure url dir_path ∈ w.dirs
  · have hw : get_image_path url dir_path w = (get_image_path_pure url dir_path, w) := by
      simp [get_image_path, hmem]
    rw [hw]
    refine ⟨rfl, rfl, rfl, rfl, fun _ => rfl, fun p => ?_⟩
    constructor
    · exact fun hp => Or.inr hp
    · rintro (rfl | hp)
      · exact hmem
      · exact hp
  · have hw : get_image_path url dir_path w
        = (get_image_path_pure url dir_path,
           { w with dirs := get_image_path_pure url dir_path :: w.dirs }) := by
      simp [get_image_path, hmem]
    rw [hw]
    exact ⟨rfl, rfl, rfl, rfl, fun hin => absurd hin hmem,
      fun p => List.mem_cons⟩


end Apod
